import Mathlib

/-
Shallow embedding of the document-image pipeline orchestrator
(src/document_image_pipelines/interfaces/document_image_pipeline.py and the
collaborator interfaces it imports).  Pure data is translated to Lean
structures; Python exceptions become `Except.error`; the few dynamically
typed comparisons in the source are embedded as explicit functions whose
doc comments record the Python evaluation they translate.
-/

/-- Classifier status codes (document_image_classifiers/interfaces, class StatusCodes). -/
inductive ClassifierStatusCodes where
  | OK
  | INVALID_IMAGE
  | NO_TEXT
  | NO_DOCUMENT
  | UNSUPPORTED_TYPE
  | EXTRACTION_FAILED
  | FAKE_DOCUMENT
  | UNKNOWN_ERROR
deriving DecidableEq, Repr

/-- String value of each classifier status, mirroring the StrEnum member values. -/
def ClassifierStatusCodes.value : ClassifierStatusCodes → String
  | .OK => "OK"
  | .INVALID_IMAGE => "INVALID_IMAGE"
  | .NO_TEXT => "NO_TEXT"
  | .NO_DOCUMENT => "NO_DOCUMENT"
  | .UNSUPPORTED_TYPE => "UNSUPPORTED_TYPE"
  | .EXTRACTION_FAILED => "EXTRACTION_FAILED"
  | .FAKE_DOCUMENT => "FAKE_DOCUMENT"
  | .UNKNOWN_ERROR => "UNKNOWN_ERROR"

/-- Parser status codes (document_image_parsers/interfaces, class StatusCodes). -/
inductive ParserStatusCodes where
  | OK
  | INVALID_IMAGE
  | NO_TEXT
  | NO_DOCUMENT
  | UNSUPPORTED_FORMAT
  | EXTRACTION_FAILED
  | FAKE_DOCUMENT
  | UNKNOWN_ERROR
deriving DecidableEq, Repr

/-- Pipeline status codes (document_image_pipeline.py, class StatusCodes). -/
inductive PipelineStatusCodes where
  | FINISHED_SUCCESS
  | ERROR
deriving DecidableEq, Repr

/-- ClassifierSchema: the pydantic record `{document_type: str}`. -/
structure ClassifierSchema where
  document_type : String
deriving DecidableEq, Repr

/-- The `details` field of DocumentImageClassifierOutput has pydantic type
`Union[ClassifierSchema, str]`; we embed the union as a sum. -/
inductive ClassifierDetails where
  | schema (s : ClassifierSchema)
  | str (m : String)
deriving DecidableEq, Repr

/-- DocumentImageClassifierOutput: `{status: StatusCodes, details: Union[Schema, str]}`.
Pydantic v1 models compare by field values (`BaseModel.eq` compares the field
dicts), which the derived structural equality reproduces. -/
structure DocumentImageClassifierOutput where
  status : ClassifierStatusCodes
  details : ClassifierDetails
deriving DecidableEq, Repr

/-- The `details` field of DocumentImageParserOutput, `Union[SchemaType, str]`.
The orchestrator never inspects the structured record, so the schema side is
embedded as an opaque payload value. -/
inductive ParserDetails where
  | schema (payload : Nat)
  | str (m : String)
deriving DecidableEq, Repr

/-- DocumentImageParserOutput: `{status: StatusCodes, details: Union[Schema, str]}`. -/
structure DocumentImageParserOutput where
  status : ParserStatusCodes
  details : ParserDetails
deriving DecidableEq, Repr

/-- An in-memory PIL image value, abstracted to an opaque datum. -/
structure Image where
  data : Nat
deriving DecidableEq, Repr

/-- The `document_image` argument of `process`: `Union[Image.Image, str]`, with
`pynone` standing for a null reference handed in despite the annotation. -/
inductive ImageInput where
  | image (i : Image)
  | path (p : String)
  | pynone
deriving DecidableEq, Repr

/-- Python truthiness of the `document_image` argument, as tested by
`if not document_image`: None and the empty path are falsy; a PIL image
object and a non-empty path are truthy. -/
def ImageInput.isFalsy : ImageInput → Bool
  | .image _ => false
  | .path p => p == ""
  | .pynone => true

/-- Python exceptions that can escape or be caught inside `process`. -/
inductive PyExn where
  | valueError (msg : String)
  | typeError (msg : String)
  | openError (p : String)
  | maxArgEmpty
deriving DecidableEq, Repr

/-- read_image (utils/file_utils.py): returns a PIL image unchanged, opens a
path (which may raise, modelled by the filesystem parameter `fs` returning
`none`), and raises ValueError on any other input. -/
def read_image (fs : String → Option Image) : ImageInput → Except PyExn Image
  | .image i => Except.ok i
  | .path p =>
      match fs p with
      | some i => Except.ok i
      | none => Except.error (PyExn.openError p)
  | .pynone => Except.error (PyExn.valueError "Unsupported image type. Provide a PIL.Image.Image or a file path.")

/-- A DocumentImageProcessor: `process(image) -> image`, which as arbitrary
Python code may also raise (modelled by `Except.error`).  `pid` models the
object identity used by `in` membership tests. -/
structure DocumentImageProcessor where
  pid : Nat
  run : Image → Except String Image

/-- A DocumentImageClassifier: its declared supported types and its
`classify` function.  `classify` is total: the GPT implementation wraps the
whole method in the handle_errors decorator, which converts any escaping
exception into a default response value. -/
structure DocumentImageClassifier where
  pid : Nat
  supported_document_types : List String
  classify : Image → DocumentImageClassifierOutput

/-- A DocumentImageParser: `target_document_type` fixed at construction and a
total `parse` function (also guarded by handle_errors in the implementation). -/
structure DocumentImageParser where
  pid : Nat
  target_document_type : String
  parse : Image → DocumentImageParserOutput

/-- DocumentImagePipeline state: the three component lists stored by
`__init__` (lines 30-37), which performs no validation. -/
structure DocumentImagePipeline where
  processors : List DocumentImageProcessor
  classifiers : List DocumentImageClassifier
  parsers : List DocumentImageParser

/-- DocumentImagePipeline.__init__ (lines 30-37): stores the three lists with
no validation of any kind. -/
def pipelineInit (processors : List DocumentImageProcessor)
    (classifiers : List DocumentImageClassifier)
    (parsers : List DocumentImageParser) : DocumentImagePipeline :=
  ⟨processors, classifiers, parsers⟩

/-- Python `set(xs)` over hashable elements — here only the document-type
strings of the validation check (lines 117-129) — modelled as the distinct
elements of `xs`.  CPython enumerates a set in an unspecified,
hash-dependent order; the embedding lists the distinct values in
first-occurrence order, and every theorem below relies only on the
membership of the result, never on this order. -/
def pySetAsList {α : Type} [DecidableEq α] : List α → List α
  | [] => []
  | x :: xs => x :: (pySetAsList xs).filter (fun y => !(y == x))

/-- Line 73 of the pipeline: `max(set(classification_results),
key=classification_results.count)`.  The collected outputs are pydantic v1
models, which define field-value equality while the pydantic metaclass sets
their hash function to None (the output classes are not frozen), so the
elements are unhashable and on a non-empty result list `set()` raises
TypeError; on an empty list `set()` succeeds and `max()` raises ValueError
(max() arg is an empty sequence).  Neither exception is caught, so line 73
never yields a verdict. -/
def pyMaxOfVerdictSet (xs : List DocumentImageClassifierOutput) :
    Except PyExn DocumentImageClassifierOutput :=
  match xs with
  | [] => Except.error PyExn.maxArgEmpty
  | _ :: _ => Except.error (PyExn.typeError "unhashable type: DocumentImageGPTClassifierOutput")

/-- Line 75: Python evaluation of `document_type.details != ClassifierStatusCodes.OK`.
When `details` is a string s, `s.__ne__(enum)` is NotImplemented and the
reflected StrEnum `__eq__` (utils/struct_utils.py) compares the enum value
"OK" with s, so the test is `s != "OK"`.  When `details` is a ClassifierSchema,
the pydantic `__eq__` compares the model's field dict with the enum and is
False, so the `!=` test is True. -/
def detailsNeOkStatus : ClassifierDetails → Bool
  | .schema _ => true
  | .str m => !(m == "OK")

/-- Line 83: Python evaluation of `parser.target_document_type == document_type`,
a `str` compared with a whole DocumentImageClassifierOutput model.
`str.__eq__` returns NotImplemented on a non-str argument, and the reflected
pydantic `__eq__` compares the model's field dict with the string, so the
comparison is always False. -/
def pyEqStrClassifierOutput (_s : String) (_v : DocumentImageClassifierOutput) : Bool :=
  false

/-- The `details` of a DocumentImagePipelineOutput.  The source interpolates
values into f-strings; the embedding keeps each message's interpolated data
as a tagged constructor so the messages stay distinguishable. -/
inductive PipelineDetails where
  | missingParsers (types : List String)
  | readError (e : PyExn)
  | processingError (e : String)
  | classifyError (d : ClassifierDetails)
  | noParserFound (verdict : DocumentImageClassifierOutput)
  | parseError (d : ParserDetails)
  | parserOutput (o : DocumentImageParserOutput)
deriving DecidableEq, Repr

/-- DocumentImagePipelineOutput: `{status, details}`. -/
structure DocumentImagePipelineOutput where
  status : PipelineStatusCodes
  details : PipelineDetails
deriving DecidableEq, Repr

/-- Union of the document types supported by the classifiers, in declaration
order (lines 121-123). -/
def classifierDocumentTypes (cs : List DocumentImageClassifier) : List String :=
  (cs.map (fun c => c.supported_document_types)).flatten

/-- Target document types of the parsers (line 118). -/
def parserTargetTypes (ps : List DocumentImageParser) : List String :=
  ps.map (fun q => q.target_document_type)

/-- validate_classifier_and_parser_document_types (lines 107-129): the
distinct classifier-supported types with no matching parser target
(`list(set(classifier_types) - set(supported_types))`), paired with
`not bool(missing)`. -/
def validateClassifierAndParserDocumentTypes (cs : List DocumentImageClassifier)
    (ps : List DocumentImageParser) : Bool × List String :=
  let missing := (pySetAsList (classifierDocumentTypes cs)).filter
    (fun t => !((parserTargetTypes ps).contains t))
  (missing.isEmpty, missing)

/-- The processor loop of lines 61-69: apply each processor in registration
order inside one try block, so the first exception aborts the chain. -/
def runProcessors : List DocumentImageProcessor → Image → Except String Image
  | [], img => Except.ok img
  | p :: ps, img =>
      match p.run img with
      | Except.error e => Except.error e
      | Except.ok next => runProcessors ps next

/-- DocumentImagePipeline.process (lines 40-104).  Returned `Except.error`
values are exceptions escaping `process`; `Except.ok` values are the
DocumentImagePipelineOutput returned to the caller. -/
def process (fs : String → Option Image) (pl : DocumentImagePipeline)
    (document_image : ImageInput) : Except PyExn DocumentImagePipelineOutput :=
  if document_image.isFalsy then
    Except.error (PyExn.valueError "An image must be provided.")
  else
    let v := validateClassifierAndParserDocumentTypes pl.classifiers pl.parsers
    if v.1 then
      match read_image fs document_image with
      | Except.error e => Except.ok ⟨.ERROR, .readError e⟩
      | Except.ok loaded =>
          match runProcessors pl.processors loaded with
          | Except.error e => Except.ok ⟨.ERROR, .processingError e⟩
          | Except.ok img =>
              match pyMaxOfVerdictSet (pl.classifiers.map (fun c => c.classify img)) with
              | Except.error ex => Except.error ex
              | Except.ok document_type =>
                  if detailsNeOkStatus document_type.details then
                    Except.ok ⟨.ERROR, .classifyError document_type.details⟩
                  else
                    match pl.parsers.find?
                        (fun q => pyEqStrClassifierOutput q.target_document_type document_type) with
                    | none => Except.ok ⟨.ERROR, .noParserFound document_type⟩
                    | some q =>
                        let result := q.parse img
                        if result.status == ParserStatusCodes.OK then
                          Except.ok ⟨.FINISHED_SUCCESS, .parserOutput result⟩
                        else
                          Except.ok ⟨.ERROR, .parseError result.details⟩
    else
      Except.ok ⟨.ERROR, .missingParsers v.2⟩

/-- Python `x in xs` membership for processors: default object equality is
identity, modelled by the `pid` field. -/
def pyMemProcessor (ps : List DocumentImageProcessor) (p : DocumentImageProcessor) : Bool :=
  ps.any (fun q => q.pid == p.pid)

/-- Python `x in xs` membership for classifiers (identity equality). -/
def pyMemClassifier (cs : List DocumentImageClassifier) (c : DocumentImageClassifier) : Bool :=
  cs.any (fun q => q.pid == c.pid)

/-- Python `x in xs` membership for parsers (identity equality). -/
def pyMemParser (ps : List DocumentImageParser) (p : DocumentImageParser) : Bool :=
  ps.any (fun q => q.pid == p.pid)

/-- add_processor (lines 131-134). -/
def add_processor (pl : DocumentImagePipeline) (p : DocumentImageProcessor) :
    Except PyExn DocumentImagePipeline :=
  if pyMemProcessor pl.processors p then
    Except.error (PyExn.valueError "Processor is already in the pipeline.")
  else
    Except.ok {pl with processors := pl.processors ++ [p]}

/-- add_classifier (lines 142-148): rejects an identity duplicate, then a
classifier with an empty supported-type list, then appends. -/
def add_classifier (pl : DocumentImagePipeline) (c : DocumentImageClassifier) :
    Except PyExn DocumentImagePipeline :=
  if pyMemClassifier pl.classifiers c then
    Except.error (PyExn.valueError "Classifier is already in the pipeline.")
  else if c.supported_document_types.isEmpty then
    Except.error (PyExn.valueError "Classifier must support at least one document type.")
  else
    Except.ok {pl with classifiers := pl.classifiers ++ [c]}

/-- add_parser (lines 158-163): rejects an identity duplicate, then a falsy
(empty) target type, then appends. -/
def addParser (pl : DocumentImagePipeline) (q : DocumentImageParser) :
    Except PyExn DocumentImagePipeline :=
  if pyMemParser pl.parsers q then
    Except.error (PyExn.valueError "Parser is already in the pipeline.")
  else if q.target_document_type == "" then
    Except.error (PyExn.valueError "Parser must have a target document type.")
  else
    Except.ok {pl with parsers := pl.parsers ++ [q]}

/-- add_processors (lines 136-140): checks the whole batch against the
current list before extending (all-or-nothing). -/
def add_processors (pl : DocumentImagePipeline) (ps : List DocumentImageProcessor) :
    Except PyExn DocumentImagePipeline :=
  if ps.any (fun p => pyMemProcessor pl.processors p) then
    Except.error (PyExn.valueError "Processor is already in the pipeline.")
  else
    Except.ok {pl with processors := pl.processors ++ ps}

/-- add_classifiers (lines 150-156): per-element duplicate and empty-type
checks against the current list, then a single extend. -/
def add_classifiers (pl : DocumentImagePipeline) (cs : List DocumentImageClassifier) :
    Except PyExn DocumentImagePipeline :=
  if cs.any (fun c => pyMemClassifier pl.classifiers c || c.supported_document_types.isEmpty) then
    Except.error (PyExn.valueError "Classifier batch rejected.")
  else
    Except.ok {pl with classifiers := pl.classifiers ++ cs}

/-- add_parsers (lines 165-171): per-element duplicate and falsy-target
checks against the current list, then a single extend. -/
def addParsers (pl : DocumentImagePipeline) (qs : List DocumentImageParser) :
    Except PyExn DocumentImagePipeline :=
  if qs.any (fun q => pyMemParser pl.parsers q || q.target_document_type == "") then
    Except.error (PyExn.valueError "Parser batch rejected.")
  else
    Except.ok {pl with parsers := pl.parsers ++ qs}

/-- DocumentFormatConverter.process (document_format_converter.py lines 21-30):
`read_image` on an in-memory image is the identity, `Image.convert` may raise
(modelled by `convert` returning `none`), and the except branch returns the
input image unchanged, so the processor never raises. -/
def documentFormatConverter (pid : Nat) (convert : Image → Option Image) :
    DocumentImageProcessor :=
  ⟨pid, fun img =>
    match convert img with
    | some j => Except.ok j
    | none => Except.ok img⟩

/-- An identity no-op processor, the reference point of the fail-open test. -/
def identityProcessor (pid : Nat) : DocumentImageProcessor :=
  ⟨pid, fun img => Except.ok img⟩

/-- True exactly on a returned output whose details is the lines 66-69
processing-stage error message. -/
def processingFailed : Except PyExn DocumentImagePipelineOutput → Bool
  | Except.ok ⟨_, .processingError _⟩ => true
  | _ => false

/-- True exactly on a returned output with status FINISHED_SUCCESS. -/
def pipelineSucceeded : Except PyExn DocumentImagePipelineOutput → Bool
  | Except.ok o => o.status == PipelineStatusCodes.FINISHED_SUCCESS
  | Except.error _ => false

lemma pyMaxOfVerdictSet_ne_ok (xs : List DocumentImageClassifierOutput)
    (w : DocumentImageClassifierOutput) : pyMaxOfVerdictSet xs ≠ Except.ok w := by
  cases xs <;> simp [pyMaxOfVerdictSet]

lemma mem_pySetAsList {α : Type} [DecidableEq α] (xs : List α) (v : α) :
    v ∈ pySetAsList xs ↔ v ∈ xs := by
  induction xs with
  | nil => simp [pySetAsList]
  | cons x xs ih =>
      by_cases h : v = x
      · subst h; simp [pySetAsList]
      · simp [pySetAsList, List.mem_filter, ih, h]

lemma validate_snd_mem (cs : List DocumentImageClassifier) (ps : List DocumentImageParser)
    (t : String) :
    t ∈ (validateClassifierAndParserDocumentTypes cs ps).2 ↔
      (t ∈ classifierDocumentTypes cs ∧ t ∉ parserTargetTypes ps) := by
  simp [validateClassifierAndParserDocumentTypes, List.mem_filter, mem_pySetAsList]

lemma validate_fst_eq_isEmpty (cs : List DocumentImageClassifier)
    (ps : List DocumentImageParser) :
    (validateClassifierAndParserDocumentTypes cs ps).1
      = ((validateClassifierAndParserDocumentTypes cs ps).2).isEmpty := rfl

lemma validate_fst_false_iff (cs : List DocumentImageClassifier)
    (ps : List DocumentImageParser) :
    (validateClassifierAndParserDocumentTypes cs ps).1 = false ↔
      ∃ t, t ∈ classifierDocumentTypes cs ∧ t ∉ parserTargetTypes ps := by
  rw [validate_fst_eq_isEmpty]
  constructor
  · intro h
    cases hm : (validateClassifierAndParserDocumentTypes cs ps).2 with
    | nil =>
        rw [hm] at h
        cases h
    | cons t ts =>
        have hmem : t ∈ (validateClassifierAndParserDocumentTypes cs ps).2 := by
          rw [hm]
          exact List.mem_cons_self t ts
        exact ⟨t, (validate_snd_mem cs ps t).mp hmem⟩
  · intro hex
    obtain ⟨t, ht⟩ := hex
    have hmem : t ∈ (validateClassifierAndParserDocumentTypes cs ps).2 :=
      (validate_snd_mem cs ps t).mpr ht
    cases hm : (validateClassifierAndParserDocumentTypes cs ps).2 with
    | nil =>
        rw [hm] at hmem
        cases hmem
    | cons u us =>
        rfl

lemma validate_eq_of_same_types (cs cs2 : List DocumentImageClassifier)
    (ps : List DocumentImageParser)
    (h : cs2.map (fun c => c.supported_document_types)
          = cs.map (fun c => c.supported_document_types)) :
    validateClassifierAndParserDocumentTypes cs2 ps
      = validateClassifierAndParserDocumentTypes cs ps := by
  simp [validateClassifierAndParserDocumentTypes, classifierDocumentTypes, h]

lemma process_invalid (fs : String → Option Image) (pl : DocumentImagePipeline)
    (img : ImageInput) (himg : img.isFalsy = false)
    (hval : (validateClassifierAndParserDocumentTypes pl.classifiers pl.parsers).1 = false) :
    process fs pl img = Except.ok ⟨.ERROR,
      .missingParsers (validateClassifierAndParserDocumentTypes pl.classifiers pl.parsers).2⟩ := by
  simp [process, himg, hval]

lemma runProcessors_ok (procs : List DocumentImageProcessor)
    (hopen : ∀ q ∈ procs, ∀ im, ∃ r, q.run im = Except.ok r) :
    ∀ im, ∃ r, runProcessors procs im = Except.ok r := by
  induction procs with
  | nil => intro im; exact ⟨im, rfl⟩
  | cons q procs ih =>
      intro im
      obtain ⟨r, hr⟩ := hopen q (List.mem_cons_self q procs) im
      obtain ⟨r2, hr2⟩ := ih (fun x hx im2 => hopen x (List.mem_cons.mpr (Or.inr hx)) im2) r
      exact ⟨r2, by simp [runProcessors, hr, hr2]⟩

lemma find?_pyEqStr (ps : List DocumentImageParser) (v : DocumentImageClassifierOutput) :
    ps.find? (fun q => pyEqStrClassifierOutput q.target_document_type v) = none := by
  apply List.find?_eq_none.mpr
  intro x hx
  simp [pyEqStrClassifierOutput]

lemma processingFailed_false (fs : String → Option Image) (pl : DocumentImagePipeline)
    (img : ImageInput)
    (hopen : ∀ q ∈ pl.processors, ∀ im, ∃ r, q.run im = Except.ok r) :
    processingFailed (process fs pl img) = false := by
  simp only [process]
  split
  · rfl
  · split
    · split
      · rfl
      · next loaded hload =>
          obtain ⟨r, hr⟩ := runProcessors_ok pl.processors hopen loaded
          split
          · next e herr =>
              rw [hr] at herr
              cases herr
          · split
            · rfl
            · next dt heq =>
                exact absurd heq (pyMaxOfVerdictSet_ne_ok _ dt)
    · rfl

/-- A concrete in-memory image used by the concrete evaluations. -/
def imgA : Image := ⟨0⟩

/-- A filesystem on which no path is readable. -/
def fsEmpty : String → Option Image := fun _ => none

/-- A classifier verdict with status OK whose details carry the receipt tag. -/
def okReceiptVerdict : DocumentImageClassifierOutput :=
  ⟨ClassifierStatusCodes.OK, ClassifierDetails.schema ⟨"receipt"⟩⟩

/-- A non-OK classifier verdict carrying an error message. -/
def errVerdict : DocumentImageClassifierOutput :=
  ⟨ClassifierStatusCodes.UNKNOWN_ERROR, ClassifierDetails.str "An unknown error occurred."⟩

/-- A classifier supporting "receipt" that always returns `okReceiptVerdict`. -/
def clOkReceipt (pid : Nat) : DocumentImageClassifier :=
  ⟨pid, ["receipt"], fun _ => okReceiptVerdict⟩

/-- A parser targeting "receipt" with the given parse behaviour. -/
def receiptParserWith (pid : Nat) (f : Image → DocumentImageParserOutput) :
    DocumentImageParser :=
  ⟨pid, "receipt", f⟩

/-- A classifier supporting only the document type "X". -/
def clX : DocumentImageClassifier := ⟨0, ["X"], fun _ => okReceiptVerdict⟩

/-- A parse function that never succeeds, standing in for an arbitrary parser body. -/
def parseStub : Image → DocumentImageParserOutput :=
  fun _ => ⟨ParserStatusCodes.UNKNOWN_ERROR, ParserDetails.str "stub"⟩

/-- C1: the claim says that on a winning OK verdict with tag T, `process`
selects and invokes exactly the parser whose target_document_type equals T.
On the claim's own scenario (classifier agreeing on an OK receipt verdict,
parser targeting receipt) line 73 raises TypeError — the collected outputs
are unhashable pydantic models — so `process` escapes with the exception and
the parse function is never applied, whatever it is; and independently, the
lines 82-85 selection compares the tag string against the whole verdict
object, an equality that is always False in Python, so it yields None on
every parser list and verdict and could never select a parser even after a
successful vote. -/
theorem C1_routing_type_mismatch :
    (∀ f, process fsEmpty ⟨[], [clOkReceipt 0], [receiptParserWith 1 f]⟩
        (ImageInput.image imgA)
      = Except.error (PyExn.typeError "unhashable type: DocumentImageGPTClassifierOutput"))
    ∧ (∀ (ps : List DocumentImageParser) (dt : DocumentImageClassifierOutput),
        ps.find? (fun q => pyEqStrClassifierOutput q.target_document_type dt) = none) :=
  ⟨fun _ => rfl, fun ps dt => find?_pyEqStr ps dt⟩

/-- C3: the claim says `process` fails after the vote exactly when the
winning verdict's status is not OK.  Two slips defeat it: line 75 tests
`document_type.details != ClassifierStatusCodes.OK` — the details field,
which evaluates True even on a fully successful verdict (status OK, schema
details), as the first two conjuncts record — and in any case line 73
raises TypeError on the non-empty collected outputs before line 75 can run,
so at the claim's own input `process` escapes with the exception instead of
proceeding to routing. -/
theorem C3_details_compared_instead_of_status :
    okReceiptVerdict.status = ClassifierStatusCodes.OK
    ∧ detailsNeOkStatus okReceiptVerdict.details = true
    ∧ (∀ f, process fsEmpty ⟨[], [clOkReceipt 2], [receiptParserWith 3 f]⟩
        (ImageInput.image imgA)
      = Except.error (PyExn.typeError "unhashable type: DocumentImageGPTClassifierOutput")) :=
  ⟨rfl, rfl, fun _ => rfl⟩

/-- C5: the claim describes routed-parser pass-through, but no call to
`process` can return status FINISHED_SUCCESS on any pipeline, filesystem or
input: line 73 always raises (TypeError on non-empty collected outputs,
ValueError on empty), and independently the line 83 routing comparison is
identically false, so the extraction stage of lines 93-104 is dead code. -/
theorem C5_success_unreachable (fs : String → Option Image)
    (pl : DocumentImagePipeline) (img : ImageInput) :
    pipelineSucceeded (process fs pl img) = false := by
  simp only [process]
  split
  · rfl
  · split
    · split
      · rfl
      · split
        · rfl
        · split
          · rfl
          · next dt heq =>
              exact absurd heq (pyMaxOfVerdictSet_ne_ok _ dt)
    · rfl

/-- C9: a falsy image argument (null reference or empty path) makes
`process` raise ValueError immediately (line 44-45), before configuration
validation, image loading or any classifier invocation; the raise happens
for every pipeline and filesystem, so no PIPELINE_ERROR outcome value is
produced. -/
theorem C9_absent_image_raises (fs : String → Option Image)
    (pl : DocumentImagePipeline) (img : ImageInput) (h : img.isFalsy = true) :
    process fs pl img = Except.error (PyExn.valueError "An image must be provided.") := by
  simp [process, h]

/-- Witness for C9 at the concrete input None. -/
theorem C9_absent_image_raises_witness :
    ImageInput.pynone.isFalsy = true
    ∧ process fsEmpty (pipelineInit [] [] []) ImageInput.pynone
        = Except.error (PyExn.valueError "An image must be provided.") :=
  ⟨rfl, C9_absent_image_raises fsEmpty (pipelineInit [] [] []) ImageInput.pynone rfl⟩

/-- C2: the claim says the winning verdict is the most frequent output value
with ties broken by first occurrence, electing A from [A, B, A] and the
first-registered output from [A, B].  No such winner is ever computed: for
every non-empty list of collected outputs, line 73's
`set(classification_results)` raises TypeError because the pydantic v1
output models are unhashable, and the exception escapes `process` — shown
in general for any outputs A :: vs, and concretely for a two-classifier
pipeline whose outputs are [A, B]. -/
theorem C2_vote_raises_typeerror :
    (∀ (A : DocumentImageClassifierOutput) (vs : List DocumentImageClassifierOutput),
        pyMaxOfVerdictSet (A :: vs)
          = Except.error (PyExn.typeError "unhashable type: DocumentImageGPTClassifierOutput"))
    ∧ process fsEmpty
        ⟨[], [clOkReceipt 0, ⟨1, ["receipt"], fun _ => errVerdict⟩],
          [receiptParserWith 2 parseStub]⟩ (ImageInput.image imgA)
      = Except.error (PyExn.typeError "unhashable type: DocumentImageGPTClassifierOutput") :=
  ⟨fun _ _ => rfl, rfl⟩

/-- C4: when some classifier-supported type has no parser targeting it,
`process` on a present image returns the ERROR outcome whose details name
exactly the missing types (lines 47-52, 107-129); the outcome does not
depend on the classifiers' classify functions (no classifier is invoked),
and the check is recomputed from the pipeline's current component lists
on every call. -/
theorem C4_invalid_config_short_circuits (fs : String → Option Image)
    (pl : DocumentImagePipeline) (img : ImageInput)
    (himg : img.isFalsy = false)
    (hmiss : ∃ t, t ∈ classifierDocumentTypes pl.classifiers
        ∧ t ∉ parserTargetTypes pl.parsers) :
    process fs pl img = Except.ok ⟨PipelineStatusCodes.ERROR,
        PipelineDetails.missingParsers
          (validateClassifierAndParserDocumentTypes pl.classifiers pl.parsers).2⟩
    ∧ (∀ t, t ∈ (validateClassifierAndParserDocumentTypes pl.classifiers pl.parsers).2
        ↔ (t ∈ classifierDocumentTypes pl.classifiers ∧ t ∉ parserTargetTypes pl.parsers))
    ∧ (∀ cs2 : List DocumentImageClassifier,
        cs2.map (fun c => c.supported_document_types)
            = pl.classifiers.map (fun c => c.supported_document_types) →
        process fs ⟨pl.processors, cs2, pl.parsers⟩ img = process fs pl img) := by
  have hval := (validate_fst_false_iff pl.classifiers pl.parsers).mpr hmiss
  refine ⟨process_invalid fs pl img himg hval, fun t => validate_snd_mem _ _ t, ?_⟩
  intro cs2 hmap
  have hv2 : validateClassifierAndParserDocumentTypes cs2 pl.parsers
      = validateClassifierAndParserDocumentTypes pl.classifiers pl.parsers :=
    validate_eq_of_same_types pl.classifiers cs2 pl.parsers hmap
  have hval2 : (validateClassifierAndParserDocumentTypes cs2 pl.parsers).1 = false := by
    rw [hv2]
    exact hval
  rw [process_invalid fs ⟨pl.processors, cs2, pl.parsers⟩ img himg hval2,
    process_invalid fs pl img himg hval]
  simp only
  rw [hv2]

/-- Witness for C4 on a pipeline whose classifier supports "X" with no parsers. -/
theorem C4_invalid_config_short_circuits_witness :
    (ImageInput.image imgA).isFalsy = false
    ∧ (∃ t, t ∈ classifierDocumentTypes [clX] ∧ t ∉ parserTargetTypes [])
    ∧ process fsEmpty ⟨[], [clX], []⟩ (ImageInput.image imgA)
        = Except.ok ⟨PipelineStatusCodes.ERROR,
            PipelineDetails.missingParsers
              (validateClassifierAndParserDocumentTypes [clX] []).2⟩ :=
  ⟨rfl, ⟨"X", by simp [classifierDocumentTypes, clX], by simp [parserTargetTypes]⟩,
    (C4_invalid_config_short_circuits fsEmpty ⟨[], [clX], []⟩ (ImageInput.image imgA) rfl
      ⟨"X", by simp [classifierDocumentTypes, clX], by simp [parserTargetTypes]⟩).1⟩

/-- C10: on a pipeline with no classifiers (whose configuration passes the
subset validation vacuously), a present and readable image and processors
that do not raise, `process` raises the max-of-empty-sequence ValueError
at line 73 instead of returning a DocumentImagePipelineOutput. -/
theorem C10_empty_classifiers_raises (fs : String → Option Image)
    (pl : DocumentImagePipeline) (img : ImageInput)
    (hcls : pl.classifiers = [])
    (himg : img.isFalsy = false)
    (hread : ∃ i, read_image fs img = Except.ok i)
    (hopen : ∀ q ∈ pl.processors, ∀ im, ∃ r, q.run im = Except.ok r) :
    process fs pl img = Except.error PyExn.maxArgEmpty := by
  obtain ⟨procs, cls, prs⟩ := pl
  simp only at hcls hopen
  subst hcls
  obtain ⟨i, hi⟩ := hread
  obtain ⟨r, hr⟩ := runProcessors_ok procs hopen i
  simp [process, himg, hi, hr, validateClassifierAndParserDocumentTypes,
    classifierDocumentTypes, pySetAsList, pyMaxOfVerdictSet]

/-- Witness for C10 on the empty pipeline and a concrete image. -/
theorem C10_empty_classifiers_raises_witness :
    (pipelineInit [] [] []).classifiers = []
    ∧ (ImageInput.image imgA).isFalsy = false
    ∧ (∃ i, read_image fsEmpty (ImageInput.image imgA) = Except.ok i)
    ∧ process fsEmpty (pipelineInit [] [] []) (ImageInput.image imgA)
        = Except.error PyExn.maxArgEmpty :=
  ⟨rfl, rfl, ⟨imgA, rfl⟩,
    C10_empty_classifiers_raises fsEmpty (pipelineInit [] [] []) (ImageInput.image imgA)
      rfl rfl ⟨imgA, rfl⟩ (by intro q hq; cases hq)⟩

/-- C6: a processor that fails internally behaves, under the fail-open
contract exhibited by DocumentFormatConverter, as the identity on its
input, so replacing it by an identity no-op processor in the same slot
leaves the outcome of `process` unchanged; when every processor honours
the fail-open contract (never raises), the processing stage of lines
61-69 never produces the pipeline error outcome; and DocumentFormatConverter
itself returns its input unchanged whenever its conversion fails. -/
theorem C6_processors_fail_open (fs : String → Option Image)
    (cls : List DocumentImageClassifier) (prs : List DocumentImageParser)
    (pre post : List DocumentImageProcessor) (p : DocumentImageProcessor)
    (img : ImageInput)
    (hfail : ∀ im, p.run im = Except.ok im) :
    process fs ⟨pre ++ p :: post, cls, prs⟩ img
        = process fs ⟨pre ++ identityProcessor p.pid :: post, cls, prs⟩ img
    ∧ ((∀ q ∈ pre ++ p :: post, ∀ im, ∃ r, q.run im = Except.ok r) →
        processingFailed (process fs ⟨pre ++ p :: post, cls, prs⟩ img) = false)
    ∧ (∀ n convert im, convert im = none →
        (documentFormatConverter n convert).run im = Except.ok im) := by
  have hp : p = identityProcessor p.pid := by
    obtain ⟨pid, run⟩ := p
    simp only [identityProcessor]
    congr 1
    funext im
    exact hfail im
  refine ⟨?_, ?_, ?_⟩
  · rw [show (⟨pre ++ identityProcessor p.pid :: post, cls, prs⟩ : DocumentImagePipeline)
        = ⟨pre ++ p :: post, cls, prs⟩ from by rw [← hp]]
  · intro hopen
    exact processingFailed_false fs ⟨pre ++ p :: post, cls, prs⟩ img hopen
  · intro n convert im hconv
    simp [documentFormatConverter, hconv]

/-- Witness for C6 with a DocumentFormatConverter whose conversion always fails. -/
theorem C6_processors_fail_open_witness :
    (∀ im, (documentFormatConverter 7 (fun _ => none)).run im = Except.ok im)
    ∧ process fsEmpty
        ⟨[documentFormatConverter 7 (fun _ => none)], [clOkReceipt 0], []⟩
        (ImageInput.image imgA)
      = process fsEmpty
        ⟨[identityProcessor (documentFormatConverter 7 (fun _ => none)).pid],
          [clOkReceipt 0], []⟩ (ImageInput.image imgA) :=
  ⟨fun _ => rfl,
    (C6_processors_fail_open fsEmpty [clOkReceipt 0] [] [] []
      (documentFormatConverter 7 (fun _ => none)) (ImageInput.image imgA)
      (fun _ => rfl)).1⟩

/-- C7 counterexample: the subset invariant is not checked at mutation
time: adding a classifier supporting "X" to the empty pipeline succeeds
although no parser targets "X", leaving the pipeline in a configuration
the validation check rejects. -/
theorem C7_counterexample :
    add_classifier (pipelineInit [] [] []) clX = Except.ok ⟨[], [clX], []⟩
    ∧ (validateClassifierAndParserDocumentTypes [clX] []).1 = false :=
  ⟨rfl, rfl⟩

/-- C7 amended: neither construction nor mutation checks the
classifier-types-subset-of-parser-targets invariant; add_classifier
accepts any non-duplicate classifier with a non-empty supported-type list
regardless of parser coverage, and the invariant is instead enforced at
the start of every `process` call, which returns the ERROR outcome naming
the missing types. -/
theorem C7_validation_deferred_to_process (procs : List DocumentImageProcessor)
    (cls : List DocumentImageClassifier) (prs : List DocumentImageParser)
    (c : DocumentImageClassifier)
    (h1 : pyMemClassifier cls c = false)
    (h2 : c.supported_document_types ≠ []) :
    add_classifier ⟨procs, cls, prs⟩ c = Except.ok ⟨procs, cls ++ [c], prs⟩
    ∧ ∀ fs img, img.isFalsy = false →
        (validateClassifierAndParserDocumentTypes (cls ++ [c]) prs).1 = false →
        process fs ⟨procs, cls ++ [c], prs⟩ img
          = Except.ok ⟨PipelineStatusCodes.ERROR,
              PipelineDetails.missingParsers
                (validateClassifierAndParserDocumentTypes (cls ++ [c]) prs).2⟩ := by
  constructor
  · rw [add_classifier]
    rw [if_neg (by simp [h1])]
    rw [if_neg (by simp [List.isEmpty_iff, h2])]
  · intro fs img himg hval
    exact process_invalid fs ⟨procs, cls ++ [c], prs⟩ img himg hval

/-- Witness for the amended C7 on the concrete "X" classifier. -/
theorem C7_validation_deferred_to_process_witness :
    pyMemClassifier [] clX = false
    ∧ clX.supported_document_types ≠ []
    ∧ add_classifier ⟨[], [], []⟩ clX = Except.ok ⟨[], [] ++ [clX], []⟩
    ∧ process fsEmpty ⟨[], [] ++ [clX], []⟩ (ImageInput.image imgA)
        = Except.ok ⟨PipelineStatusCodes.ERROR,
            PipelineDetails.missingParsers
              (validateClassifierAndParserDocumentTypes ([] ++ [clX]) []).2⟩ :=
  ⟨rfl, by simp [clX],
    (C7_validation_deferred_to_process [] [] [] clX rfl (by simp [clX])).1,
    (C7_validation_deferred_to_process [] [] [] clX rfl (by simp [clX])).2
      fsEmpty (ImageInput.image imgA) rfl rfl⟩

/-- C8 counterexample: add_parser does not reject a target-tag collision:
a second, distinct parser object with the same target type "receipt" as an
already-registered parser is accepted and appended. -/
theorem C8_counterexample :
    (receiptParserWith 1 parseStub).target_document_type
        = (receiptParserWith 2 parseStub).target_document_type
    ∧ addParser (pipelineInit [] [] [receiptParserWith 1 parseStub])
        (receiptParserWith 2 parseStub)
      = Except.ok ⟨[], [], [receiptParserWith 1 parseStub, receiptParserWith 2 parseStub]⟩ :=
  ⟨rfl, rfl⟩

/-- C8 amended: each singular mutation method rejects only an identity
duplicate (appending nothing); target-tag collisions between distinct
parser objects are not rejected; add_classifier additionally rejects a
classifier with an empty supported-type list and add_parser rejects a
parser whose target type is the falsy empty string. -/
theorem C8_mutation_checks (pl : DocumentImagePipeline) (p : DocumentImageParser)
    (c : DocumentImageClassifier) (pr : DocumentImageProcessor) :
    (pyMemParser pl.parsers p = false → p.target_document_type ≠ "" →
        addParser pl p = Except.ok ⟨pl.processors, pl.classifiers, pl.parsers ++ [p]⟩)
    ∧ (pyMemParser pl.parsers p = true →
        addParser pl p = Except.error (PyExn.valueError "Parser is already in the pipeline."))
    ∧ (pyMemParser pl.parsers p = false → p.target_document_type = "" →
        addParser pl p = Except.error (PyExn.valueError "Parser must have a target document type."))
    ∧ (pyMemClassifier pl.classifiers c = false → c.supported_document_types ≠ [] →
        add_classifier pl c = Except.ok ⟨pl.processors, pl.classifiers ++ [c], pl.parsers⟩)
    ∧ (pyMemClassifier pl.classifiers c = true →
        add_classifier pl c = Except.error (PyExn.valueError "Classifier is already in the pipeline."))
    ∧ (pyMemClassifier pl.classifiers c = false → c.supported_document_types = [] →
        add_classifier pl c = Except.error (PyExn.valueError "Classifier must support at least one document type."))
    ∧ (pyMemProcessor pl.processors pr = false →
        add_processor pl pr = Except.ok ⟨pl.processors ++ [pr], pl.classifiers, pl.parsers⟩)
    ∧ (pyMemProcessor pl.processors pr = true →
        add_processor pl pr = Except.error (PyExn.valueError "Processor is already in the pipeline.")) := by
  obtain ⟨procs, cls, prs⟩ := pl
  refine ⟨?_, ?_, ?_, ?_, ?_, ?_, ?_, ?_⟩
  · intro h1 h2
    simp only [addParser]
    rw [if_neg (by simp [h1]), if_neg (by simp [h2])]
  · intro h1
    simp only [addParser]
    rw [if_pos (by simp [h1])]
  · intro h1 h2
    simp only [addParser]
    rw [if_neg (by simp [h1]), if_pos (by simp [h2])]
  · intro h1 h2
    simp only [add_classifier]
    rw [if_neg (by simp [h1]), if_neg (by simp [List.isEmpty_iff, h2])]
  · intro h1
    simp only [add_classifier]
    rw [if_pos (by simp [h1])]
  · intro h1 h2
    simp only [add_classifier]
    rw [if_neg (by simp [h1]), if_pos (by simp [List.isEmpty_iff, h2])]
  · intro h1
    simp only [add_processor]
    rw [if_neg (by simp [h1])]
  · intro h1
    simp only [add_processor]
    rw [if_pos (by simp [h1])]

/-- Witness for the amended C8 on concrete components. -/
theorem C8_mutation_checks_witness :
    pyMemParser [] (receiptParserWith 5 parseStub) = false
    ∧ (receiptParserWith 5 parseStub).target_document_type ≠ ""
    ∧ addParser (pipelineInit [] [] []) (receiptParserWith 5 parseStub)
        = Except.ok ⟨[], [], [] ++ [receiptParserWith 5 parseStub]⟩ :=
  ⟨rfl, by simp [receiptParserWith],
    (C8_mutation_checks (pipelineInit [] [] []) (receiptParserWith 5 parseStub)
      (clOkReceipt 0) (identityProcessor 0)).1 rfl (by simp [receiptParserWith])⟩
